import Mathlib

/-!
Verification of the FluxReplicateMcp request pipeline.

This file gives a shallow embedding of the pipeline's pure logic:
the aspect-ratio resolver and parameter shaping of `src/replicate.ts`,
the input shaping and retry wrapper of `src/replicate-client.ts`,
the dimension calculator and option validator of `src/image-processor.ts`,
and the quality handling of the orchestrator in `src/index.ts`.

Modelling conventions:
* JavaScript `x || d` defaulting treats `undefined`, `0` and `""` as falsy;
  it is modelled explicitly by the `jsOr*` helpers below.
* JavaScript number arithmetic is modelled exactly over `ℚ`.
* Fallible code is modelled with `Except`/`Option`; a value in the error
  branch means the corresponding exception was thrown (or the failure
  result returned) before any further effect happened.
-/

/-- JS `x || d` for an optional natural-number parameter: `undefined` and `0` are falsy. -/
def jsOrNat (x : Option Nat) (d : Nat) : Nat :=
  match x with
  | some v => if v = 0 then d else v
  | none => d

/-- JS `x || d` for an optional integer parameter: `undefined` and `0` are falsy. -/
def jsOrInt (x : Option Int) (d : Int) : Int :=
  match x with
  | some v => if v = 0 then d else v
  | none => d

/-- JS `x || d` for an optional rational parameter: `undefined` and `0` are falsy. -/
def jsOrQ (x : Option ℚ) (d : ℚ) : ℚ :=
  match x with
  | some v => if v = 0 then d else v
  | none => d

/-- JS `x || d` for an optional string: `undefined` and `""` are falsy. -/
def jsOrStr (x : Option String) (d : String) : String :=
  match x with
  | some s => if s = "" then d else s
  | none => d

/-- JS truthiness of an optional string value. -/
def jsTruthyStr (x : Option String) : Bool :=
  match x with
  | some s => s ≠ ""
  | none => false

/-- JS truthiness of an optional integer value. -/
def jsTruthyInt (x : Option Int) : Bool :=
  match x with
  | some v => v ≠ 0
  | none => false

/-- JS truthiness of an optional rational value. -/
def jsTruthyQ (x : Option ℚ) : Bool :=
  match x with
  | some v => v ≠ 0
  | none => false

/-- JS `Math.round` for nonnegative inputs: round half up. -/
def jsRound (q : ℚ) : ℤ := ⌊q + 1/2⌋

/-- JS `String.prototype.trim` (also `String.trim` in the source language's
standard library): strip whitespace from both ends. Modelled structurally over
the character list so that it evaluates on concrete inputs. -/
def jsTrim (s : String) : String :=
  ⟨((s.data.dropWhile Char.isWhitespace).reverse.dropWhile Char.isWhitespace).reverse⟩

/-- Embedding of `getAspectRatio` (src/src/replicate.ts, lines 38-66), expressed
over the exact rational value `ratio = width / height`. -/
def getAspectRatioQ (ratio : ℚ) : String :=
  if |ratio - 1| < 1/100 then "1:1"
  else if |ratio - 4/3| < 1/100 then "4:3"
  else if |ratio - 3/4| < 1/100 then "3:4"
  else if |ratio - 16/9| < 1/100 then "16:9"
  else if |ratio - 9/16| < 1/100 then "9:16"
  else if |ratio - 21/9| < 1/100 then "21:9"
  else if |ratio - 9/21| < 1/100 then "9:21"
  else if |ratio - 2/3| < 1/100 then "2:3"
  else if |ratio - 3/2| < 1/100 then "3:2"
  else if ratio > 1 then
    if ratio < 14/10 then "4:3"
    else if ratio < 16/10 then "3:2"
    else if ratio < 21/10 then "16:9"
    else "21:9"
  else
    if ratio > 8/10 then "3:4"
    else if ratio > 65/100 then "2:3"
    else if ratio > 5/10 then "9:16"
    else "9:21"

/-- The `getAspectRatio` helper of src/src/replicate.ts applied to integer
width and height. -/
def getAspectRatio (width height : Nat) : String :=
  getAspectRatioQ ((width : ℚ) / (height : ℚ))

/-- The fixed enumeration of ratio names that occur as results of `getAspectRatio`. -/
def aspectRatioNames : List String :=
  ["1:1", "16:9", "9:16", "4:3", "3:4", "21:9", "9:21", "2:3", "3:2"]

theorem getAspectRatioQ_mem (q : ℚ) : getAspectRatioQ q ∈ aspectRatioNames := by
  unfold getAspectRatioQ
  by_cases h1 : |q - 1| < 1/100
  · rw [if_pos h1]; decide
  rw [if_neg h1]
  by_cases h2 : |q - 4/3| < 1/100
  · rw [if_pos h2]; decide
  rw [if_neg h2]
  by_cases h3 : |q - 3/4| < 1/100
  · rw [if_pos h3]; decide
  rw [if_neg h3]
  by_cases h4 : |q - 16/9| < 1/100
  · rw [if_pos h4]; decide
  rw [if_neg h4]
  by_cases h5 : |q - 9/16| < 1/100
  · rw [if_pos h5]; decide
  rw [if_neg h5]
  by_cases h6 : |q - 21/9| < 1/100
  · rw [if_pos h6]; decide
  rw [if_neg h6]
  by_cases h7 : |q - 9/21| < 1/100
  · rw [if_pos h7]; decide
  rw [if_neg h7]
  by_cases h8 : |q - 2/3| < 1/100
  · rw [if_pos h8]; decide
  rw [if_neg h8]
  by_cases h9 : |q - 3/2| < 1/100
  · rw [if_pos h9]; decide
  rw [if_neg h9]
  by_cases h10 : q > 1
  · rw [if_pos h10]
    by_cases h11 : q < 14/10
    · rw [if_pos h11]; decide
    rw [if_neg h11]
    by_cases h12 : q < 16/10
    · rw [if_pos h12]; decide
    rw [if_neg h12]
    by_cases h13 : q < 21/10
    · rw [if_pos h13]; decide
    rw [if_neg h13]; decide
  rw [if_neg h10]
  by_cases h14 : q > 8/10
  · rw [if_pos h14]; decide
  rw [if_neg h14]
  by_cases h15 : q > 65/100
  · rw [if_pos h15]; decide
  rw [if_neg h15]
  by_cases h16 : q > 5/10
  · rw [if_pos h16]; decide
  rw [if_neg h16]; decide

/-- If `q` is within 1/100 of `a` and `b` is at least 1/50 below `a`, then `q`
is not within 1/100 of `b`. -/
theorem not_near_below {q a b : ℚ} (h : |q - a| < 1/100) (hab : b + 1/50 ≤ a) :
    ¬ |q - b| < 1/100 := by
  intro hb
  have h1 := abs_lt.mp h
  have h2 := abs_lt.mp hb
  linarith [h1.1, h2.2]

/-- If `q` is within 1/100 of `a` and `b` is at least 1/50 above `a`, then `q`
is not within 1/100 of `b`. -/
theorem not_near_above {q a b : ℚ} (h : |q - a| < 1/100) (hab : a + 1/50 ≤ b) :
    ¬ |q - b| < 1/100 := by
  intro hb
  have h1 := abs_lt.mp h
  have h2 := abs_lt.mp hb
  linarith [h1.2, h2.1]

theorem near_one (q : ℚ) (h : |q - 1| < 1/100) : getAspectRatioQ q = "1:1" := by
  unfold getAspectRatioQ
  rw [if_pos h]

theorem near_43 (q : ℚ) (h : |q - 4/3| < 1/100) : getAspectRatioQ q = "4:3" := by
  unfold getAspectRatioQ
  rw [if_neg (not_near_below h (by norm_num)), if_pos h]

theorem near_34 (q : ℚ) (h : |q - 3/4| < 1/100) : getAspectRatioQ q = "3:4" := by
  unfold getAspectRatioQ
  rw [if_neg (not_near_above h (by norm_num)),
    if_neg (not_near_above h (by norm_num)), if_pos h]

theorem near_169 (q : ℚ) (h : |q - 16/9| < 1/100) : getAspectRatioQ q = "16:9" := by
  unfold getAspectRatioQ
  rw [if_neg (not_near_below h (by norm_num)),
    if_neg (not_near_below h (by norm_num)),
    if_neg (not_near_below h (by norm_num)), if_pos h]

theorem near_916 (q : ℚ) (h : |q - 9/16| < 1/100) : getAspectRatioQ q = "9:16" := by
  unfold getAspectRatioQ
  rw [if_neg (not_near_above h (by norm_num)),
    if_neg (not_near_above h (by norm_num)),
    if_neg (not_near_above h (by norm_num)),
    if_neg (not_near_above h (by norm_num)), if_pos h]

theorem near_219 (q : ℚ) (h : |q - 21/9| < 1/100) : getAspectRatioQ q = "21:9" := by
  unfold getAspectRatioQ
  rw [if_neg (not_near_below h (by norm_num)),
    if_neg (not_near_below h (by norm_num)),
    if_neg (not_near_below h (by norm_num)),
    if_neg (not_near_below h (by norm_num)),
    if_neg (not_near_below h (by norm_num)), if_pos h]

theorem near_921 (q : ℚ) (h : |q - 9/21| < 1/100) : getAspectRatioQ q = "9:21" := by
  unfold getAspectRatioQ
  rw [if_neg (not_near_above h (by norm_num)),
    if_neg (not_near_above h (by norm_num)),
    if_neg (not_near_above h (by norm_num)),
    if_neg (not_near_above h (by norm_num)),
    if_neg (not_near_above h (by norm_num)),
    if_neg (not_near_above h (by norm_num)), if_pos h]

theorem near_23 (q : ℚ) (h : |q - 2/3| < 1/100) : getAspectRatioQ q = "2:3" := by
  unfold getAspectRatioQ
  rw [if_neg (not_near_above h (by norm_num)),
    if_neg (not_near_above h (by norm_num)),
    if_neg (not_near_above h (by norm_num)),
    if_neg (not_near_above h (by norm_num)),
    if_neg (not_near_below h (by norm_num)),
    if_neg (not_near_above h (by norm_num)),
    if_neg (not_near_below h (by norm_num)), if_pos h]

theorem near_32 (q : ℚ) (h : |q - 3/2| < 1/100) : getAspectRatioQ q = "3:2" := by
  unfold getAspectRatioQ
  rw [if_neg (not_near_below h (by norm_num)),
    if_neg (not_near_below h (by norm_num)),
    if_neg (not_near_below h (by norm_num)),
    if_neg (not_near_above h (by norm_num)),
    if_neg (not_near_below h (by norm_num)),
    if_neg (not_near_above h (by norm_num)),
    if_neg (not_near_below h (by norm_num)),
    if_neg (not_near_below h (by norm_num)), if_pos h]

/-- C4: for every pair of positive integers, getAspectRatio returns one of the
nine enumerated ratio names; it is a total function, hence deterministic and
never failing. -/
theorem getAspectRatio_total (w h : Nat) (hw : 0 < w) (hh : 0 < h) :
    getAspectRatio w h ∈ aspectRatioNames :=
  getAspectRatioQ_mem ((w : ℚ) / (h : ℚ))

theorem getAspectRatio_total_witness :
    0 < 1024 ∧ 0 < 768 ∧ getAspectRatio 1024 768 ∈ aspectRatioNames :=
  ⟨by decide, by decide, getAspectRatio_total 1024 768 (by decide) (by decide)⟩

/-- C5: whenever width/height is strictly within 0.01 of one of the nine named
ratios, getAspectRatio returns exactly that named ratio and never a
magnitude-bucket fallback. -/
theorem getAspectRatio_near_named (w h : Nat) (hw : 0 < w) (hh : 0 < h) :
    (|(w : ℚ) / h - 1| < 1/100 → getAspectRatio w h = "1:1") ∧
    (|(w : ℚ) / h - 16/9| < 1/100 → getAspectRatio w h = "16:9") ∧
    (|(w : ℚ) / h - 9/16| < 1/100 → getAspectRatio w h = "9:16") ∧
    (|(w : ℚ) / h - 4/3| < 1/100 → getAspectRatio w h = "4:3") ∧
    (|(w : ℚ) / h - 3/4| < 1/100 → getAspectRatio w h = "3:4") ∧
    (|(w : ℚ) / h - 21/9| < 1/100 → getAspectRatio w h = "21:9") ∧
    (|(w : ℚ) / h - 9/21| < 1/100 → getAspectRatio w h = "9:21") ∧
    (|(w : ℚ) / h - 2/3| < 1/100 → getAspectRatio w h = "2:3") ∧
    (|(w : ℚ) / h - 3/2| < 1/100 → getAspectRatio w h = "3:2") :=
  ⟨near_one _, near_169 _, near_916 _, near_43 _, near_34 _,
    near_219 _, near_921 _, near_23 _, near_32 _⟩

theorem getAspectRatio_near_named_witness :
    |(1920 : ℚ) / 1080 - 16/9| < 1/100 ∧ getAspectRatio 1920 1080 = "16:9" :=
  ⟨by norm_num,
    (getAspectRatio_near_named 1920 1080 (by decide) (by decide)).2.1 (by norm_num)⟩

/-- The JS value supplied as the `prompt` request field: absent, defined but
not a string, or a string. -/
inductive JsPrompt
  | absent
  | notAString
  | str (s : String)
deriving DecidableEq

/-- The error taxonomy of src/src/errors.ts. -/
inductive ErrorCode
  | AUTH
  | API
  | VALIDATION
  | PROCESSING
deriving DecidableEq

/-- The McpError of src/src/errors.ts (the optional context record is omitted:
no claim consults it). -/
structure McpError where
  message : String
  code : ErrorCode
deriving DecidableEq

/-- FLUX_MODELS of src/src/replicate.ts: model key to Replicate model id. -/
def FLUX_MODELS : List (String × String) :=
  [("flux-1.1-pro", "black-forest-labs/flux-1.1-pro"),
   ("flux-pro", "black-forest-labs/flux-pro"),
   ("flux-schnell", "black-forest-labs/flux-schnell"),
   ("flux-ultra", "black-forest-labs/flux-ultra")]

/-- GenerateImageParams of src/src/replicate.ts. -/
structure GenerateImageParams where
  prompt : JsPrompt
  model : Option String := none
  width : Option Nat := none
  height : Option Nat := none
  num_outputs : Option Nat := none
  guidance_scale : Option ℚ := none
  num_inference_steps : Option Nat := none
  seed : Option Int := none
deriving DecidableEq

/-- The `...(params.seed && { seed: params.seed })` spread: the `seed` field is
present in the input object exactly when `params.seed` is truthy, that is,
defined and nonzero. -/
def jsSeedField (seed : Option Int) : Option Int :=
  match seed with
  | some v => if v = 0 then none else some v
  | none => none

/-- The upstream input object assembled by `generateImage` in
src/src/replicate.ts; `none` in an optional field means the field is absent
from the object sent to the provider. -/
structure FluxInput where
  prompt : String
  aspect_ratio : String
  num_outputs : Nat
  seed : Option Int
  guidance_scale : Option ℚ
  num_inference_steps : Nat
deriving DecidableEq

/-- Embedding of `generateImage` of src/src/replicate.ts (lines 93-141) up to
the upstream call: `Except.error` is a thrown McpError, meaning no upstream
call is made; `Except.ok` carries the exact input object handed to the
provider. -/
def generateImage (defaultModel : String) (params : GenerateImageParams) :
    Except McpError FluxInput :=
  match params.prompt with
  | .absent => .error ⟨"Prompt is required and must be a non-empty string", .VALIDATION⟩
  | .notAString => .error ⟨"Prompt is required and must be a non-empty string", .VALIDATION⟩
  | .str p =>
    if (jsTrim p).length = 0 then
      .error ⟨"Prompt is required and must be a non-empty string", .VALIDATION⟩
    else if (FLUX_MODELS.lookup (jsOrStr params.model defaultModel)).isNone then
      .error ⟨"Unsupported model: " ++ jsOrStr params.model defaultModel ++
        ". Supported models: flux-1.1-pro, flux-pro, flux-schnell, flux-ultra", .VALIDATION⟩
    else if jsOrStr params.model defaultModel = "flux-schnell" then
      .ok {
        prompt := jsTrim p,
        aspect_ratio := getAspectRatio (jsOrNat params.width 1024) (jsOrNat params.height 768),
        num_outputs := jsOrNat params.num_outputs 1,
        seed := jsSeedField params.seed,
        guidance_scale := none,
        num_inference_steps := min (jsOrNat params.num_inference_steps 4) 4 }
    else
      .ok {
        prompt := jsTrim p,
        aspect_ratio := getAspectRatio (jsOrNat params.width 1024) (jsOrNat params.height 768),
        num_outputs := jsOrNat params.num_outputs 1,
        seed := jsSeedField params.seed,
        guidance_scale := some (jsOrQ params.guidance_scale (7/2)),
        num_inference_steps := jsOrNat params.num_inference_steps 28 }

/-- Characterization of a successful run of `generateImage`: the prompt was a
string with nonempty trim and the input fields are exactly the shaped values. -/
theorem generateImage_ok_spec (defaultModel : String) (params : GenerateImageParams)
    (input : FluxInput) (hok : generateImage defaultModel params = .ok input) :
    (∃ p, params.prompt = .str p ∧ input.prompt = jsTrim p ∧ (jsTrim p).length ≠ 0) ∧
    input.seed = jsSeedField params.seed ∧
    input.num_outputs = jsOrNat params.num_outputs 1 ∧
    input.aspect_ratio = getAspectRatio (jsOrNat params.width 1024) (jsOrNat params.height 768) ∧
    (jsOrStr params.model defaultModel = "flux-schnell" →
      input.guidance_scale = none ∧
      input.num_inference_steps = min (jsOrNat params.num_inference_steps 4) 4) ∧
    (jsOrStr params.model defaultModel ≠ "flux-schnell" →
      input.guidance_scale = some (jsOrQ params.guidance_scale (7/2)) ∧
      input.num_inference_steps = jsOrNat params.num_inference_steps 28) := by
  unfold generateImage at hok
  split at hok
  · exact Except.noConfusion hok
  · exact Except.noConfusion hok
  · rename_i p hp
    by_cases ht : (jsTrim p).length = 0
    · rw [if_pos ht] at hok
      exact Except.noConfusion hok
    rw [if_neg ht] at hok
    by_cases hm : (FLUX_MODELS.lookup (jsOrStr params.model defaultModel)).isNone = true
    · rw [if_pos hm] at hok
      exact Except.noConfusion hok
    rw [if_neg hm] at hok
    by_cases hs : jsOrStr params.model defaultModel = "flux-schnell"
    · rw [if_pos hs] at hok
      injection hok with hinp
      subst hinp
      exact ⟨⟨p, hp, rfl, ht⟩, rfl, rfl, rfl, fun _ => ⟨rfl, rfl⟩,
        fun hcontra => absurd hs hcontra⟩
    · rw [if_neg hs] at hok
      injection hok with hinp
      subst hinp
      exact ⟨⟨p, hp, rfl, ht⟩, rfl, rfl, rfl, fun hcontra => absurd hcontra hs,
        fun _ => ⟨rfl, rfl⟩⟩

/-- Decidable equality for `Except`, needed to evaluate the embedded client
functions on concrete inputs. -/
def exceptDecEq {e a : Type} [DecidableEq e] [DecidableEq a] :
    (x y : Except e a) → Decidable (x = y)
  | .error u, .error v =>
    match decEq u v with
    | .isTrue h => .isTrue (h ▸ rfl)
    | .isFalse h => .isFalse (fun hc => h (by cases hc; rfl))
  | .error _, .ok _ => .isFalse (fun hc => Except.noConfusion hc)
  | .ok _, .error _ => .isFalse (fun hc => Except.noConfusion hc)
  | .ok x, .ok y =>
    match decEq x y with
    | .isTrue h => .isTrue (h ▸ rfl)
    | .isFalse h => .isFalse (fun hc => h (by cases hc; rfl))

instance {e a : Type} [DecidableEq e] [DecidableEq a] : DecidableEq (Except e a) :=
  exceptDecEq

/-- ASPECT_RATIOS of src/src/replicate-client.ts: ratio name to canonical
pixel pair. -/
def ASPECT_RATIOS : List (String × Nat × Nat) :=
  [("1:1", 1024, 1024), ("16:9", 1344, 768), ("9:16", 768, 1344),
   ("4:3", 1152, 896), ("3:4", 896, 1152), ("21:9", 1536, 640), ("9:21", 640, 1536)]

/-- FLUX_MODELS of src/src/replicate-client.ts: model key to display name (the
id and cost tier are omitted: no claim consults them). -/
def RC_FLUX_MODELS : List (String × String) :=
  [("flux-pro", "Flux Pro"), ("flux-schnell", "Flux Schnell")]

/-- ImageGenerationParams of src/src/replicate-client.ts. -/
structure ImageGenerationParams where
  prompt : String
  model : String
  aspect_ratio : String
  num_outputs : Option Nat := none
  guidance_scale : Option ℚ := none
  num_inference_steps : Option Nat := none
  seed : Option Int := none
deriving DecidableEq

/-- The input object assembled by `ReplicateClient.generateImage` in
src/src/replicate-client.ts (lines 144-153); only the `seed` field can be
absent. -/
structure RCInput where
  prompt : String
  width : Nat
  height : Nat
  num_outputs : Nat
  guidance_scale : Option ℚ
  num_inference_steps : Nat
  seed : Option Int
deriving DecidableEq

/-- Embedding of `ReplicateClient.generateImage` of src/src/replicate-client.ts
(lines 128-160) up to the upstream call: an error is a thrown exception (caught
into a failure result by the same method) and means no upstream call is made;
`Except.ok` carries the exact input object handed to the provider. The input
shaping does not branch on the model: every model, flux-schnell included,
receives a `guidance_scale` and a `num_inference_steps` field. -/
def rcGenerateImage (params : ImageGenerationParams) : Except String RCInput :=
  if (RC_FLUX_MODELS.lookup params.model).isNone then
    .error ("Unsupported model: " ++ params.model)
  else
    match ASPECT_RATIOS.lookup params.aspect_ratio with
    | none => .error ("Unsupported aspect ratio: " ++ params.aspect_ratio)
    | some (w, h) =>
      .ok {
        prompt := params.prompt,
        width := w,
        height := h,
        num_outputs := jsOrNat params.num_outputs 1,
        guidance_scale := some (jsOrQ params.guidance_scale (7/2)),
        num_inference_steps := jsOrNat params.num_inference_steps 28,
        seed := jsSeedField params.seed }

/-- Characterization of a successful run of `ReplicateClient.generateImage`. -/
theorem rcGenerateImage_ok_spec (params : ImageGenerationParams) (input : RCInput)
    (hok : rcGenerateImage params = .ok input) :
    input.prompt = params.prompt ∧
    input.guidance_scale = some (jsOrQ params.guidance_scale (7/2)) ∧
    input.num_inference_steps = jsOrNat params.num_inference_steps 28 ∧
    input.seed = jsSeedField params.seed := by
  unfold rcGenerateImage at hok
  by_cases hm : (RC_FLUX_MODELS.lookup params.model).isNone = true
  · rw [if_pos hm] at hok
    exact Except.noConfusion hok
  rw [if_neg hm] at hok
  split at hok
  · exact Except.noConfusion hok
  · injection hok with hinp
    subst hinp
    exact ⟨rfl, rfl, rfl, rfl⟩

/-- The concrete input object produced by `ReplicateClient.generateImage` for a
flux-schnell request with no optional parameters. -/
def rcSchnellInput : RCInput := {
  prompt := "sunset",
  width := 1024,
  height := 1024,
  num_outputs := 1,
  guidance_scale := some (7/2),
  num_inference_steps := 28,
  seed := none }

/-- C2 counterexample: `ReplicateClient.generateImage` of
src/src/replicate-client.ts, called with model flux-schnell, sends an input
that does contain a `guidance_scale` field (value 3.5) and whose
`num_inference_steps` is 28, not capped at 4 — contradicting the claim that
for flux-schnell no guidance_scale field is sent and steps are capped at 4. -/
theorem rcGenerateImage_schnell_guidance_counterexample :
    rcGenerateImage { prompt := "sunset", model := "flux-schnell", aspect_ratio := "1:1" } =
      .ok rcSchnellInput ∧
    rcSchnellInput.guidance_scale ≠ none ∧
    rcSchnellInput.num_inference_steps ≠ 4 :=
  ⟨rfl, by decide, by decide⟩

/-- C2 (amended): in the simple client of src/src/replicate.ts (and its
two-model variant), a flux-schnell request sends `num_inference_steps` equal to
the requested value capped at 4 (default 4) and no `guidance_scale` field; any
other model sends `guidance_scale` (default 3.5) and `num_inference_steps`
(default 28). The `ReplicateClient` of src/src/replicate-client.ts instead
sends `guidance_scale` (default 3.5) and `num_inference_steps` (default 28)
for every model, flux-schnell included. -/
theorem generateImage_model_shaping (defaultModel : String)
    (params : GenerateImageParams) (input : FluxInput)
    (hok : generateImage defaultModel params = .ok input)
    (rparams : ImageGenerationParams) (rinput : RCInput)
    (hrok : rcGenerateImage rparams = .ok rinput) :
    (jsOrStr params.model defaultModel = "flux-schnell" →
      input.guidance_scale = none ∧
      input.num_inference_steps = min (jsOrNat params.num_inference_steps 4) 4 ∧
      input.num_inference_steps ≤ 4 ∧
      (params.num_inference_steps = none → input.num_inference_steps = 4)) ∧
    (jsOrStr params.model defaultModel ≠ "flux-schnell" →
      input.guidance_scale = some (jsOrQ params.guidance_scale (7/2)) ∧
      (params.guidance_scale = none → input.guidance_scale = some (7/2)) ∧
      input.num_inference_steps = jsOrNat params.num_inference_steps 28 ∧
      (params.num_inference_steps = none → input.num_inference_steps = 28)) ∧
    (rinput.guidance_scale = some (jsOrQ rparams.guidance_scale (7/2)) ∧
      rinput.num_inference_steps = jsOrNat rparams.num_inference_steps 28) := by
  obtain ⟨-, -, -, -, hs, hns⟩ := generateImage_ok_spec defaultModel params input hok
  obtain ⟨-, hrg, hrn, -⟩ := rcGenerateImage_ok_spec rparams rinput hrok
  refine ⟨?_, ?_, hrg, hrn⟩
  · intro h
    obtain ⟨hg, hn⟩ := hs h
    refine ⟨hg, hn, ?_, ?_⟩
    · rw [hn]
      exact min_le_right _ _
    · intro hnone
      rw [hn, hnone]
      decide
  · intro h
    obtain ⟨hg, hn⟩ := hns h
    refine ⟨hg, ?_, hn, ?_⟩
    · intro hnone
      rw [hg, hnone]
      rfl
    · intro hnone
      rw [hn, hnone]
      rfl

/-- The concrete input object produced by `generateImage` of
src/src/replicate.ts for a flux-schnell request with no optional parameters
(the default width 1024 and height 768 resolve to the 4:3 aspect ratio). -/
def schnellWitnessInput : FluxInput := {
  prompt := "sunset",
  aspect_ratio := getAspectRatio 1024 768,
  num_outputs := 1,
  seed := none,
  guidance_scale := none,
  num_inference_steps := 4 }

theorem generateImage_model_shaping_witness :
    generateImage "flux-pro" { prompt := .str "sunset", model := some "flux-schnell" } =
      .ok schnellWitnessInput ∧
    rcGenerateImage { prompt := "sunset", model := "flux-pro", aspect_ratio := "1:1" } =
      .ok rcSchnellInput ∧
    schnellWitnessInput.guidance_scale = none ∧
    schnellWitnessInput.num_inference_steps ≤ 4 := by
  have hok : generateImage "flux-pro" { prompt := .str "sunset", model := some "flux-schnell" } =
      .ok schnellWitnessInput := rfl
  have hrok : rcGenerateImage { prompt := "sunset", model := "flux-pro", aspect_ratio := "1:1" } =
      .ok rcSchnellInput := rfl
  have h := (generateImage_model_shaping "flux-pro"
    { prompt := .str "sunset", model := some "flux-schnell" } schnellWitnessInput hok
    { prompt := "sunset", model := "flux-pro", aspect_ratio := "1:1" } rcSchnellInput hrok).1
    (by decide)
  exact ⟨hok, hrok, h.1, by rw [h.2.1]; exact min_le_right _ _⟩

/-- C7: whenever `generateImage` of src/src/replicate.ts is called with a
prompt that is absent, not a string, or empty after trimming, or with a model
name outside the supported enumeration, it throws an error with code
VALIDATION; the result is `Except.error`, so no upstream input object is ever
assembled and no network call or retry can take place. -/
theorem generateImage_validation (defaultModel : String) (params : GenerateImageParams)
    (hbad : params.prompt = .absent ∨ params.prompt = .notAString ∨
      (∃ p, params.prompt = .str p ∧ (jsTrim p).length = 0) ∨
      (FLUX_MODELS.lookup (jsOrStr params.model defaultModel)).isNone = true) :
    ∃ e : McpError, generateImage defaultModel params = .error e ∧ e.code = .VALIDATION := by
  rcases hbad with hp | hp | ⟨p, hp, ht⟩ | hm
  · exact ⟨⟨"Prompt is required and must be a non-empty string", .VALIDATION⟩,
      by simp only [generateImage, hp], rfl⟩
  · exact ⟨⟨"Prompt is required and must be a non-empty string", .VALIDATION⟩,
      by simp only [generateImage, hp], rfl⟩
  · refine ⟨⟨"Prompt is required and must be a non-empty string", .VALIDATION⟩, ?_, rfl⟩
    simp only [generateImage, hp]
    rw [if_pos ht]
  · rcases hp : params.prompt with _ | _ | p
    · exact ⟨⟨"Prompt is required and must be a non-empty string", .VALIDATION⟩,
        by simp only [generateImage, hp], rfl⟩
    · exact ⟨⟨"Prompt is required and must be a non-empty string", .VALIDATION⟩,
        by simp only [generateImage, hp], rfl⟩
    · by_cases ht : (jsTrim p).length = 0
      · refine ⟨⟨"Prompt is required and must be a non-empty string", .VALIDATION⟩, ?_, rfl⟩
        simp only [generateImage, hp]
        rw [if_pos ht]
      · refine ⟨⟨"Unsupported model: " ++ jsOrStr params.model defaultModel ++
          ". Supported models: flux-1.1-pro, flux-pro, flux-schnell, flux-ultra",
          .VALIDATION⟩, ?_, rfl⟩
        simp only [generateImage, hp]
        rw [if_neg ht, if_pos hm]

theorem generateImage_validation_witness :
    (∃ e : McpError, generateImage "flux-pro" { prompt := .str "   " } = .error e ∧
      e.code = .VALIDATION) ∧
    (∃ e : McpError,
      generateImage "flux-pro" { prompt := .str "sunset", model := some "flux-9000" } =
        .error e ∧ e.code = .VALIDATION) :=
  ⟨generateImage_validation "flux-pro" { prompt := .str "   " }
      (Or.inr (Or.inr (Or.inl ⟨"   ", rfl, by decide⟩))),
    generateImage_validation "flux-pro" { prompt := .str "sunset", model := some "flux-9000" }
      (Or.inr (Or.inr (Or.inr (by decide))))⟩

theorem jsSeedField_pos (s : Int) (hs : 0 < s) : jsSeedField (some s) = some s := by
  show (if s = 0 then none else some s) = some s
  rw [if_neg (by omega : ¬ s = 0)]

/-- C10: in both generation clients, a seed of 0 is indistinguishable from an
omitted seed — the input object sent upstream carries no seed field — while
every strictly positive seed is forwarded unchanged. -/
theorem seed_zero_omitted (defaultModel : String) (params : GenerateImageParams)
    (input : FluxInput) (hok : generateImage defaultModel params = .ok input)
    (rparams : ImageGenerationParams) (rinput : RCInput)
    (hrok : rcGenerateImage rparams = .ok rinput) :
    (params.seed = some 0 → input.seed = none) ∧
    (params.seed = none → input.seed = none) ∧
    (∀ s : Int, 0 < s → params.seed = some s → input.seed = some s) ∧
    (rparams.seed = some 0 → rinput.seed = none) ∧
    (rparams.seed = none → rinput.seed = none) ∧
    (∀ s : Int, 0 < s → rparams.seed = some s → rinput.seed = some s) := by
  obtain ⟨-, hseed, -, -, -, -⟩ := generateImage_ok_spec defaultModel params input hok
  obtain ⟨-, -, -, hrseed⟩ := rcGenerateImage_ok_spec rparams rinput hrok
  refine ⟨?_, ?_, ?_, ?_, ?_, ?_⟩
  · intro h
    rw [hseed, h]
    rfl
  · intro h
    rw [hseed, h]
    rfl
  · intro s hs h
    rw [hseed, h]
    exact jsSeedField_pos s hs
  · intro h
    rw [hrseed, h]
    rfl
  · intro h
    rw [hrseed, h]
    rfl
  · intro s hs h
    rw [hrseed, h]
    exact jsSeedField_pos s hs

/-- The input object produced by `generateImage` of src/src/replicate.ts when a
zero seed is supplied: no seed field is present. -/
def seedZeroWitnessInput : FluxInput := {
  prompt := "sunset",
  aspect_ratio := getAspectRatio 1024 768,
  num_outputs := 1,
  seed := none,
  guidance_scale := some (7/2),
  num_inference_steps := 28 }

/-- Request parameters carrying a zero seed, for the replicate-client variant. -/
def seedZeroParams : ImageGenerationParams :=
  { prompt := "sunset", model := "flux-pro", aspect_ratio := "1:1", seed := some 0 }

theorem seed_zero_omitted_witness :
    generateImage "flux-pro" { prompt := .str "sunset", seed := some 0 } =
      .ok seedZeroWitnessInput ∧
    rcGenerateImage seedZeroParams = .ok rcSchnellInput ∧
    seedZeroWitnessInput.seed = none ∧ rcSchnellInput.seed = none := by
  have hok : generateImage "flux-pro" { prompt := .str "sunset", seed := some 0 } =
      .ok seedZeroWitnessInput := rfl
  have hrok : rcGenerateImage seedZeroParams = .ok rcSchnellInput := rfl
  have h := seed_zero_omitted "flux-pro" { prompt := .str "sunset", seed := some 0 }
    seedZeroWitnessInput hok seedZeroParams rcSchnellInput hrok
  exact ⟨hok, hrok, h.1 rfl, h.2.2.2.1 rfl⟩

/-- The quality value applied by `applyFormatOptions` of
src/src/image-processor.ts (line 181): `options.quality || configured default`. -/
def applyFormatOptionsQuality (quality : Option Int) (defaultQuality : Int) : Int :=
  jsOrInt quality defaultQuality

/-- Quality handling of `handleImageGeneration` in src/src/index.ts (lines
144-253), abstracted to the quality-relevant data: the caller-supplied quality
(defaulted to the configured default when absent), whether some other condition
(resize request or format mismatch) forces processing, and the result: `some q`
when the pipeline reaches encoding with applied quality `q`, `none` when either
validation rejects the request (quality out of [1,100]) or no encoding happens
(the image is saved directly without processing). -/
def handleImageGenerationQuality (argQuality : Option Int) (defaultQuality : Int)
    (otherProcessingTrigger : Bool) : Option Int :=
  if otherProcessingTrigger = true ∨ argQuality.getD defaultQuality ≠ defaultQuality then
    if argQuality.getD defaultQuality < 1 ∨ 100 < argQuality.getD defaultQuality then none
    else some (applyFormatOptionsQuality (some (argQuality.getD defaultQuality)) defaultQuality)
  else none

/-- C6: in the request pipeline, the prompt sent upstream is the trimmed
caller prompt and is nonempty, and every quality value actually applied during
encoding lies in [1,100] (out-of-range qualities are rejected by validation
before any encoding, so they are never applied), provided the configured
default quality is itself in [1,100] as the configuration layer guarantees. -/
theorem pipeline_prompt_quality_invariant (defaultModel : String)
    (params : GenerateImageParams) (input : FluxInput)
    (hok : generateImage defaultModel params = .ok input)
    (argQuality : Option Int) (defaultQuality : Int) (trigger : Bool)
    (hd1 : 1 ≤ defaultQuality) (hd2 : defaultQuality ≤ 100) (q : Int)
    (hq : handleImageGenerationQuality argQuality defaultQuality trigger = some q) :
    (∃ p, params.prompt = .str p ∧ input.prompt = jsTrim p ∧ input.prompt ≠ "") ∧
    1 ≤ q ∧ q ≤ 100 := by
  obtain ⟨⟨p, hp, hpr, ht⟩, -, -, -, -, -⟩ := generateImage_ok_spec defaultModel params input hok
  constructor
  · refine ⟨p, hp, hpr, ?_⟩
    intro he
    apply ht
    have h1 : jsTrim p = "" := hpr.symm.trans he
    rw [h1]
    rfl
  · unfold handleImageGenerationQuality at hq
    by_cases ho : trigger = true ∨ argQuality.getD defaultQuality ≠ defaultQuality
    · rw [if_pos ho] at hq
      by_cases hr : argQuality.getD defaultQuality < 1 ∨ 100 < argQuality.getD defaultQuality
      · rw [if_pos hr] at hq
        exact Option.noConfusion hq
      · rw [if_neg hr] at hq
        push_neg at hr
        injection hq with hq2
        subst hq2
        unfold applyFormatOptionsQuality jsOrInt
        by_cases hz : argQuality.getD defaultQuality = 0
        · simp only [hz, if_pos]
          omega
        · simp only [if_neg hz]
          omega
    · rw [if_neg ho] at hq
      exact Option.noConfusion hq

theorem pipeline_prompt_quality_invariant_witness :
    (∃ p, JsPrompt.str " sunset " = JsPrompt.str p ∧
      seedZeroWitnessInput.prompt = jsTrim p ∧ seedZeroWitnessInput.prompt ≠ "") ∧
    1 ≤ (90 : Int) ∧ (90 : Int) ≤ 100 := by
  have h := pipeline_prompt_quality_invariant "flux-pro"
    { prompt := .str " sunset ", seed := some 0 } seedZeroWitnessInput rfl
    (some 90) 80 false (by omega) (by omega) 90 rfl
  exact h

/-- Boolean test that the first character list is a prefix of the second. -/
def isPrefixB : List Char → List Char → Bool
  | [], _ => true
  | _ :: _, [] => false
  | a :: as, b :: bs => a = b && isPrefixB as bs

/-- JS `String.prototype.includes` over character lists: `containsB s pat` is
true when `pat` occurs contiguously inside `s`. -/
def containsB : List Char → List Char → Bool
  | [], pat => pat.isEmpty
  | c :: rest, pat => isPrefixB pat (c :: rest) || containsB rest pat

/-- The client-error test of `generateImageWithRetry`
(src/src/replicate-client.ts, lines 221 and 231): the error message contains
"400", "401" or "403". -/
def isClientError (msg : String) : Bool :=
  containsB msg.data "400".data || containsB msg.data "401".data ||
    containsB msg.data "403".data

/-- The `result.error?.includes(...)` form: an absent error message is not a
client error. -/
def optIsClientError : Option String → Bool
  | some m => isClientError m
  | none => false

/-- Outcome of one `generateImage` call inside the retry loop: a success
result, a failure result carrying `result.error`, or a thrown exception. -/
inductive AttemptOutcome
  | resultOk
  | resultErr (msg : Option String)
  | thrown (msg : String)
deriving DecidableEq

/-- How `generateImageWithRetry` ends: returning the success result, returning
a failed result without retrying (the client-error path), or raising an error. -/
inductive RetryResult
  | success
  | failedResult (msg : Option String)
  | raised (msg : String)
deriving DecidableEq

/-- Observable trace of one `generateImageWithRetry` run: how many
`generateImage` attempts were made, the backoff delays awaited between
attempts (in order), and the final outcome. -/
structure RetryTrace where
  attempts : Nat
  delays : List Nat
  result : RetryResult
deriving DecidableEq

/-- The loop of `generateImageWithRetry` (src/src/replicate-client.ts, lines
205-245). `fuel` counts the loop iterations still allowed
(`maxRetries - attempt + 1`); `outcomes n` is what the n-th `generateImage`
call does; `lastError`, the attempt counter and the accumulated delays are the
loop state. -/
def retryLoop (outcomes : Nat → AttemptOutcome) (maxRetries baseDelay : Nat) :
    Nat → Nat → Option String → Nat → List Nat → RetryTrace
  | 0, _, lastError, done, delays =>
    ⟨done, delays.reverse, .raised (lastError.getD "All retry attempts failed")⟩
  | fuel + 1, attempt, _, done, delays =>
    match outcomes attempt with
    | .resultOk => ⟨done + 1, delays.reverse, .success⟩
    | .resultErr msg =>
      if optIsClientError msg then ⟨done + 1, delays.reverse, .failedResult msg⟩
      else if attempt < maxRetries then
        retryLoop outcomes maxRetries baseDelay fuel (attempt + 1)
          (some (jsOrStr msg "Generation failed")) (done + 1)
          (baseDelay * 2 ^ (attempt - 1) :: delays)
      else
        retryLoop outcomes maxRetries baseDelay fuel (attempt + 1)
          (some (jsOrStr msg "Generation failed")) (done + 1) delays
    | .thrown msg =>
      if isClientError msg then ⟨done + 1, delays.reverse, .raised msg⟩
      else if attempt < maxRetries then
        retryLoop outcomes maxRetries baseDelay fuel (attempt + 1) (some msg) (done + 1)
          (baseDelay * 2 ^ (attempt - 1) :: delays)
      else
        retryLoop outcomes maxRetries baseDelay fuel (attempt + 1) (some msg) (done + 1) delays

/-- `generateImageWithRetry` of src/src/replicate-client.ts as a trace over
stubbed attempt outcomes (the source defaults are maxRetries 3, baseDelay
1000). -/
def generateImageWithRetry (outcomes : Nat → AttemptOutcome)
    (maxRetries baseDelay : Nat) : RetryTrace :=
  retryLoop outcomes maxRetries baseDelay maxRetries 1 none 0 []

/-- Stub a finite schedule of attempt outcomes: the n-th call gets the n-th
list entry, succeeding past the end of the list. -/
def stubOutcomes (l : List AttemptOutcome) (n : Nat) : AttemptOutcome :=
  l.getD (n - 1) .resultOk

theorem retryLoop_resultOk (o : Nat → AttemptOutcome) (mr bd f att done : Nat)
    (le : Option String) (ds : List Nat) (h : o att = .resultOk) :
    retryLoop o mr bd (f + 1) att le done ds = ⟨done + 1, ds.reverse, .success⟩ := by
  unfold retryLoop
  rw [h]

theorem retryLoop_resultErr_client (o : Nat → AttemptOutcome) (mr bd f att done : Nat)
    (le msg : Option String) (ds : List Nat) (h : o att = .resultErr msg)
    (hc : optIsClientError msg = true) :
    retryLoop o mr bd (f + 1) att le done ds = ⟨done + 1, ds.reverse, .failedResult msg⟩ := by
  unfold retryLoop
  rw [h]
  simp only [hc, if_pos]

theorem retryLoop_resultErr_retry (o : Nat → AttemptOutcome) (mr bd f att done : Nat)
    (le msg : Option String) (ds : List Nat) (h : o att = .resultErr msg)
    (hc : optIsClientError msg = false) (hlt : att < mr) :
    retryLoop o mr bd (f + 1) att le done ds =
      retryLoop o mr bd f (att + 1) (some (jsOrStr msg "Generation failed")) (done + 1)
        (bd * 2 ^ (att - 1) :: ds) := by
  unfold retryLoop
  rw [h]
  simp only [hc, Bool.false_eq_true, if_false, if_pos hlt]
  rw [retryLoop.eq_def]

theorem retryLoop_resultErr_last (o : Nat → AttemptOutcome) (mr bd f att done : Nat)
    (le msg : Option String) (ds : List Nat) (h : o att = .resultErr msg)
    (hc : optIsClientError msg = false) (hge : ¬ att < mr) :
    retryLoop o mr bd (f + 1) att le done ds =
      retryLoop o mr bd f (att + 1) (some (jsOrStr msg "Generation failed")) (done + 1) ds := by
  unfold retryLoop
  rw [h]
  simp only [hc, Bool.false_eq_true, if_false, if_neg hge]
  rw [retryLoop.eq_def]

theorem retryLoop_thrown_client (o : Nat → AttemptOutcome) (mr bd f att done : Nat)
    (le : Option String) (msg : String) (ds : List Nat) (h : o att = .thrown msg)
    (hc : isClientError msg = true) :
    retryLoop o mr bd (f + 1) att le done ds = ⟨done + 1, ds.reverse, .raised msg⟩ := by
  unfold retryLoop
  rw [h]
  simp only [hc, if_pos]

theorem retryLoop_exhausted (o : Nat → AttemptOutcome) (mr bd att done : Nat)
    (le : Option String) (ds : List Nat) :
    retryLoop o mr bd 0 att le done ds =
      ⟨done, ds.reverse, .raised (le.getD "All retry attempts failed")⟩ := by
  unfold retryLoop
  rfl

/-- C1 (amended): for `generateImageWithRetry` with maxRetries 3 and baseDelay
1000: a client-error failure (message containing 400, 401 or 403) on the first
attempt yields exactly 1 attempt and immediate failure, whether the failure is
a returned failed result or a thrown error; a non-client failure waits
baseDelay * 2^(attempt-1) before the next attempt and never after the last
attempt; TWO consecutive non-client failures followed by a success yield
exactly 3 attempts and a successful response; and when the first three
attempts fail with non-client errors the wrapper makes exactly 3 attempts and
raises the last error, even if a fourth attempt would have succeeded. -/
theorem generateImageWithRetry_policy (m m1 m2 m3 : String)
    (hm : isClientError m = true)
    (h1 : isClientError m1 = false) (h2 : isClientError m2 = false)
    (h3 : isClientError m3 = false)
    (hne1 : m1 ≠ "") (hne2 : m2 ≠ "") (hne3 : m3 ≠ "") :
    generateImageWithRetry (stubOutcomes [.resultErr (some m)]) 3 1000 =
      { attempts := 1, delays := [], result := .failedResult (some m) } ∧
    generateImageWithRetry (stubOutcomes [.thrown m]) 3 1000 =
      { attempts := 1, delays := [], result := .raised m } ∧
    generateImageWithRetry
        (stubOutcomes [.resultErr (some m1), .resultErr (some m2), .resultOk]) 3 1000 =
      { attempts := 3, delays := [1000, 2000], result := .success } ∧
    generateImageWithRetry
        (stubOutcomes [.resultErr (some m1), .resultErr (some m2), .resultErr (some m3),
          .resultOk]) 3 1000 =
      { attempts := 3, delays := [1000, 2000], result := .raised m3 } ∧
    generateImageWithRetry
        (stubOutcomes [.resultErr (some m1), .resultErr (some m2), .resultErr (some m3)])
        3 1000 =
      { attempts := 3, delays := [1000, 2000], result := .raised m3 } := by
  have hc1 : optIsClientError (some m1) = false := h1
  have hc2 : optIsClientError (some m2) = false := h2
  have hc3 : optIsClientError (some m3) = false := h3
  have hj3 : jsOrStr (some m3) "Generation failed" = m3 := by
    show (if m3 = "" then "Generation failed" else m3) = m3
    rw [if_neg hne3]
  refine ⟨?_, ?_, ?_, ?_, ?_⟩
  · exact retryLoop_resultErr_client _ 3 1000 2 1 0 none (some m) [] rfl hm
  · exact retryLoop_thrown_client _ 3 1000 2 1 0 none m [] rfl hm
  · rw [generateImageWithRetry,
      retryLoop_resultErr_retry _ 3 1000 2 1 0 none (some m1) [] rfl hc1 (by omega),
      retryLoop_resultErr_retry _ 3 1000 1 2 1 _ (some m2) _ rfl hc2 (by omega),
      retryLoop_resultOk _ 3 1000 0 3 2 _ _ rfl]
    simp
  · rw [generateImageWithRetry,
      retryLoop_resultErr_retry _ 3 1000 2 1 0 none (some m1) [] rfl hc1 (by omega),
      retryLoop_resultErr_retry _ 3 1000 1 2 1 _ (some m2) _ rfl hc2 (by omega),
      retryLoop_resultErr_last _ 3 1000 0 3 2 _ (some m3) _ rfl hc3 (by omega),
      retryLoop_exhausted]
    simp
    exact hj3
  · rw [generateImageWithRetry,
      retryLoop_resultErr_retry _ 3 1000 2 1 0 none (some m1) [] rfl hc1 (by omega),
      retryLoop_resultErr_retry _ 3 1000 1 2 1 _ (some m2) _ rfl hc2 (by omega),
      retryLoop_resultErr_last _ 3 1000 0 3 2 _ (some m3) _ rfl hc3 (by omega),
      retryLoop_exhausted]
    simp
    exact hj3

/-- The stubbed upstream schedule of the claim's scenario: three consecutive
non-client failures, then a success available on the fourth call. -/
def threeFailuresThenSuccess : Nat → AttemptOutcome :=
  stubOutcomes [.resultErr (some "upstream error 500"), .resultErr (some "upstream error 502"),
    .resultErr (some "upstream error 503"), .resultOk]

/-- C1 counterexample: with maxRetries 3 and baseDelay 1000, three consecutive
non-client-error failures followed by an available success do NOT yield a
successful response: the wrapper stops after exactly 3 attempts and raises the
third error, never reaching the success. -/
theorem generateImageWithRetry_three_failures_counterexample :
    generateImageWithRetry threeFailuresThenSuccess 3 1000 =
      { attempts := 3, delays := [1000, 2000], result := .raised "upstream error 503" } ∧
    (generateImageWithRetry threeFailuresThenSuccess 3 1000).result ≠ RetryResult.success :=
  ⟨by decide, by decide⟩

theorem generateImageWithRetry_policy_witness :
    isClientError "HTTP 401 Unauthorized" = true ∧
    isClientError "upstream error 500" = false ∧
    generateImageWithRetry (stubOutcomes [.resultErr (some "HTTP 401 Unauthorized")]) 3 1000 =
      { attempts := 1, delays := [], result := .failedResult (some "HTTP 401 Unauthorized") } ∧
    generateImageWithRetry (stubOutcomes [.resultErr (some "upstream error 500"),
      .resultErr (some "upstream error 502"), .resultOk]) 3 1000 =
      { attempts := 3, delays := [1000, 2000], result := .success } := by
  have h := generateImageWithRetry_policy "HTTP 401 Unauthorized" "upstream error 500"
    "upstream error 502" "upstream error 503" (by decide) (by decide) (by decide) (by decide)
    (by decide) (by decide) (by decide)
  exact ⟨by decide, by decide, h.1, h.2.2.1⟩

/-- The fit modes accepted by `calculateOptimalDimensions`. -/
inductive CalcFit
  | cover
  | contain
  | fill
deriving DecidableEq

/-- Embedding of `calculateOptimalDimensions` of src/src/image-processor.ts
(lines 273-318). Target dimensions are optional JS numbers (`undefined` and
`0` are falsy, modelled through `Option.getD 0`); `Math.round` is `jsRound`. -/
def calculateOptimalDimensions (originalWidth originalHeight : ℚ)
    (targetWidth targetHeight : Option ℚ) (fit : CalcFit) : ℚ × ℚ :=
  if targetWidth.getD 0 = 0 ∧ targetHeight.getD 0 = 0 then
    (originalWidth, originalHeight)
  else if targetWidth.getD 0 ≠ 0 ∧ targetHeight.getD 0 ≠ 0 then
    match fit with
    | .fill => (targetWidth.getD 0, targetHeight.getD 0)
    | .contain =>
      if originalWidth / originalHeight > targetWidth.getD 0 / targetHeight.getD 0 then
        (targetWidth.getD 0, (jsRound (targetWidth.getD 0 / (originalWidth / originalHeight)) : ℚ))
      else
        ((jsRound (targetHeight.getD 0 * (originalWidth / originalHeight)) : ℚ), targetHeight.getD 0)
    | .cover =>
      if originalWidth / originalHeight > targetWidth.getD 0 / targetHeight.getD 0 then
        ((jsRound (targetHeight.getD 0 * (originalWidth / originalHeight)) : ℚ), targetHeight.getD 0)
      else
        (targetWidth.getD 0, (jsRound (targetWidth.getD 0 / (originalWidth / originalHeight)) : ℚ))
  else if targetWidth.getD 0 ≠ 0 then
    (targetWidth.getD 0, (jsRound (targetWidth.getD 0 * (originalHeight / originalWidth)) : ℚ))
  else if targetHeight.getD 0 ≠ 0 then
    ((jsRound (targetHeight.getD 0 * (originalWidth / originalHeight)) : ℚ), targetHeight.getD 0)
  else
    (originalWidth, originalHeight)

/-- C3 counterexample: on a 200 by 100 source with a 50 by 50 target,
`calculateOptimalDimensions` in fit mode cover returns 100 by 50 (the
cover-scaled size before cropping), not the claimed 200 by 100. -/
theorem calculateOptimalDimensions_cover_counterexample :
    calculateOptimalDimensions 200 100 (some 50) (some 50) .cover = (100, 50) ∧
    calculateOptimalDimensions 200 100 (some 50) (some 50) .cover ≠ ((200 : ℚ), (100 : ℚ)) := by
  have h : calculateOptimalDimensions 200 100 (some 50) (some 50) .cover = (100, 50) := by
    norm_num [calculateOptimalDimensions, jsRound, Option.getD]
  refine ⟨h, ?_⟩
  rw [h]
  intro hc
  have := congrArg Prod.fst hc
  norm_num at this

/-- C3 (amended): on a 200 by 100 source with target width 50 and height 50,
fit mode contain yields 50 by 25 as claimed, while fit mode cover yields
100 by 50 (target height 50, width scaled by the original 2:1 ratio), not
200 by 100. -/
theorem calculateOptimalDimensions_contain_cover :
    calculateOptimalDimensions 200 100 (some 50) (some 50) .contain = (50, 25) ∧
    calculateOptimalDimensions 200 100 (some 50) (some 50) .cover = (100, 50) := by
  constructor
  · norm_num [calculateOptimalDimensions, jsRound, Option.getD]
  · norm_num [calculateOptimalDimensions, jsRound, Option.getD]

/-- Pixel dimensions of an image. -/
structure Dimensions where
  width : Nat
  height : Nat
deriving DecidableEq

/-- ImageProcessingResult of src/src/image-processor.ts (the wall-clock
processing time is omitted: real time is not modelled). -/
structure ImageProcessingResult where
  success : Bool
  outputPath : String
  originalDimensions : Dimensions
  finalDimensions : Dimensions
  outputFormat : String
  fileSize : Nat
  error : Option String
deriving DecidableEq

/-- The fallible steps `processImage` runs in order: reading the input buffer
metadata (decode), creating the output directory, encoding to a buffer
(resize and format options included), writing the file, and reading the
metadata of the encoded buffer. Each field is that step's outcome when
reached; `Except.error` carries the message of the exception it throws. -/
structure ProcSteps where
  metadata : Except String Dimensions
  mkdir : Except String Unit
  toBuffer : Except String Nat
  writeFile : Except String Unit
  finalMetadata : Except String Dimensions

/-- The failure result built by the catch block of `processImage`
(src/src/image-processor.ts, lines 121-134). -/
def failureResult (outputPath msg : String) : ImageProcessingResult := {
  success := false,
  outputPath := outputPath,
  originalDimensions := ⟨0, 0⟩,
  finalDimensions := ⟨0, 0⟩,
  outputFormat := "unknown",
  fileSize := 0,
  error := some msg }

/-- The try block of `processImage` (src/src/image-processor.ts, lines 73-119):
run the steps in order, stopping at the first thrown error. -/
def processImageBody (steps : ProcSteps) (outputPath outputFormat : String) :
    Except String ImageProcessingResult := do
  let origDims ← steps.metadata
  let _ ← steps.mkdir
  let size ← steps.toBuffer
  let _ ← steps.writeFile
  let finalDims ← steps.finalMetadata
  pure {
    success := true,
    outputPath := outputPath,
    originalDimensions := origDims,
    finalDimensions := finalDims,
    outputFormat := outputFormat,
    fileSize := size,
    error := none }

/-- `processImage` of src/src/image-processor.ts (lines 67-135): the try block
wrapped in the catch-all that converts any thrown error into a failure
result. -/
def processImage (steps : ProcSteps) (outputPath outputFormat : String) :
    ImageProcessingResult :=
  match processImageBody steps outputPath outputFormat with
  | .ok r => r
  | .error msg => failureResult outputPath msg

/-- A successful run of the `processImage` try block produces the success
record: flag set and no error message. -/
theorem processImageBody_ok_spec (steps : ProcSteps) (op fmt : String)
    (r : ImageProcessingResult) (h : processImageBody steps op fmt = .ok r) :
    r.success = true ∧ r.error = none := by
  unfold processImageBody at h
  cases h1 : steps.metadata with
  | error e =>
    rw [h1] at h
    exact Except.noConfusion h
  | ok origDims =>
    rw [h1] at h
    cases h2 : steps.mkdir with
    | error e =>
      rw [h2] at h
      exact Except.noConfusion h
    | ok u =>
      rw [h2] at h
      cases h3 : steps.toBuffer with
      | error e =>
        rw [h3] at h
        exact Except.noConfusion h
      | ok size =>
        rw [h3] at h
        cases h4 : steps.writeFile with
        | error e =>
          rw [h4] at h
          exact Except.noConfusion h
        | ok u2 =>
          rw [h4] at h
          cases h5 : steps.finalMetadata with
          | error e =>
            rw [h5] at h
            exact Except.noConfusion h
          | ok finalDims =>
            rw [h5] at h
            injection h with hr
            subst hr
            exact ⟨rfl, rfl⟩

/-- C8: `processImage` is total over the step outcomes — it always returns a
result record rather than re-raising — and whenever any decode, mkdir, encode,
write or metadata step throws with message `msg`, the returned record is the
failure report carrying exactly `some msg` as its descriptive error (the
PROCESSING-category report of the spec's taxonomy); conversely a returned
record with `success = false` always carries such a message. -/
theorem processImage_catches_all (steps : ProcSteps) (op fmt : String) :
    (∀ msg, processImageBody steps op fmt = .error msg →
      processImage steps op fmt = failureResult op msg) ∧
    ((processImage steps op fmt).success = false ↔
      ∃ msg, processImageBody steps op fmt = .error msg) ∧
    ((processImage steps op fmt).success = false →
      ∃ msg, (processImage steps op fmt).error = some msg) := by
  cases hb : processImageBody steps op fmt with
  | ok r =>
    obtain ⟨hs, he⟩ := processImageBody_ok_spec steps op fmt r hb
    have hpi : processImage steps op fmt = r := by
      unfold processImage
      rw [hb]
    refine ⟨?_, ?_, ?_⟩
    · intro msg hmsg
      exact Except.noConfusion hmsg
    · rw [hpi, hs]
      constructor
      · intro hc
        exact Bool.noConfusion hc
      · rintro ⟨msg, hmsg⟩
        exact Except.noConfusion hmsg
    · rw [hpi, hs]
      intro hc
      exact Bool.noConfusion hc
  | error msg =>
    have hpi : processImage steps op fmt = failureResult op msg := by
      unfold processImage
      rw [hb]
    refine ⟨?_, ?_, ?_⟩
    · intro msg2 hmsg
      injection hmsg with hm
      rw [hpi, hm]
    · rw [hpi]
      exact ⟨fun _ => ⟨msg, rfl⟩, fun _ => rfl⟩
    · rw [hpi]
      intro hc
      exact ⟨msg, rfl⟩

/-- Step outcomes where the initial decode fails. -/
def decodeFailSteps : ProcSteps := {
  metadata := .error "Input buffer contains unsupported image format",
  mkdir := .ok (),
  toBuffer := .ok 0,
  writeFile := .ok (),
  finalMetadata := .ok ⟨0, 0⟩ }

theorem processImage_catches_all_witness :
    processImage decodeFailSteps "out.jpg" "jpg" =
      failureResult "out.jpg" "Input buffer contains unsupported image format" ∧
    (processImage decodeFailSteps "out.jpg" "jpg").success = false ∧
    (processImage decodeFailSteps "out.jpg" "jpg").error =
      some "Input buffer contains unsupported image format" := by
  have h := (processImage_catches_all decodeFailSteps "out.jpg" "jpg").1
    "Input buffer contains unsupported image format" rfl
  exact ⟨h, by rw [h]; rfl, by rw [h]; rfl⟩

/-- ResizeOptions of src/src/image-processor.ts restricted to the fields the
validator consults (fit, position and background are never validated). -/
structure ResizeOptions where
  width : Option Int := none
  height : Option Int := none
deriving DecidableEq

/-- ImageProcessingOptions of src/src/image-processor.ts restricted to the
fields the validator consults; `outputPath = none` models an absent or
non-string value, `outputPath = some ""` an empty string (both falsy). -/
structure ImageProcessingOptions where
  outputPath : Option String := none
  outputFormat : Option String := none
  quality : Option Int := none
  resize : Option ResizeOptions := none
deriving DecidableEq

/-- Result shape of `validateProcessingOptions`. -/
structure ValidationOutcome where
  isValid : Bool
  errors : List String
deriving DecidableEq

/-- The output-path check of `validateProcessingOptions`
(src/src/image-processor.ts, lines 237-239). -/
def outputPathErrors (outputPath : Option String) : List String :=
  if jsTruthyStr outputPath = false then
    ["Output path is required and must be a string"]
  else []

/-- The quality check of `validateProcessingOptions`
(src/src/image-processor.ts, lines 242-244). -/
def qualityErrors (quality : Option Int) : List String :=
  match quality with
  | some q => if q < 1 ∨ 100 < q then ["Quality must be between 1 and 100"] else []
  | none => []

/-- The resize checks of `validateProcessingOptions`
(src/src/image-processor.ts, lines 247-257). -/
def resizeErrors (resize : Option ResizeOptions) : List String :=
  match resize with
  | some r =>
    (match r.width with
      | some w => if w ≤ 0 then ["Resize width must be greater than 0"] else []
      | none => []) ++
    (match r.height with
      | some h => if h ≤ 0 then ["Resize height must be greater than 0"] else []
      | none => []) ++
    (if jsTruthyInt r.width = false ∧ jsTruthyInt r.height = false then
      ["At least one of width or height must be specified for resize"]
    else [])
  | none => []

/-- The output-format check of `validateProcessingOptions`
(src/src/image-processor.ts, lines 260-262). -/
def outputFormatErrors (outputFormat : Option String) : List String :=
  match outputFormat with
  | some f =>
    if f ≠ "" ∧ f ∉ (["jpg", "jpeg", "png", "webp"] : List String) then
      ["Output format must be one of: jpg, jpeg, png, webp"]
    else []
  | none => []

/-- `validateProcessingOptions` of src/src/image-processor.ts (lines 233-268):
collect the error messages of the four checks in order; the options are valid
exactly when no error was produced. -/
def validateProcessingOptions (options : ImageProcessingOptions) : ValidationOutcome :=
  ⟨(outputPathErrors options.outputPath ++ qualityErrors options.quality ++
      resizeErrors options.resize ++ outputFormatErrors options.outputFormat).isEmpty,
    outputPathErrors options.outputPath ++ qualityErrors options.quality ++
      resizeErrors options.resize ++ outputFormatErrors options.outputFormat⟩

theorem mem_ite_singleton {c : Prop} [Decidable c] {a b : String}
    (h : a ∈ if c then [b] else []) : a = b := by
  by_cases hc : c
  · rw [if_pos hc] at h
    simpa using h
  · rw [if_neg hc] at h
    simp at h

theorem quality_msg_not_in_path (x : Option String) :
    "Quality must be between 1 and 100" ∉ outputPathErrors x := by
  intro h
  unfold outputPathErrors at h
  exact absurd (mem_ite_singleton h) (by decide)

theorem quality_msg_not_in_resize (x : Option ResizeOptions) :
    "Quality must be between 1 and 100" ∉ resizeErrors x := by
  intro h
  unfold resizeErrors at h
  cases x with
  | none => simp at h
  | some r =>
    rcases List.mem_append.mp h with h12 | h3
    · rcases List.mem_append.mp h12 with h1 | h2
      · cases hw : r.width with
        | none =>
          rw [hw] at h1
          simp at h1
        | some w =>
          rw [hw] at h1
          exact absurd (mem_ite_singleton h1) (by decide)
      · cases hh : r.height with
        | none =>
          rw [hh] at h2
          simp at h2
        | some hv =>
          rw [hh] at h2
          exact absurd (mem_ite_singleton h2) (by decide)
    · exact absurd (mem_ite_singleton h3) (by decide)

theorem quality_msg_not_in_format (x : Option String) :
    "Quality must be between 1 and 100" ∉ outputFormatErrors x := by
  intro h
  unfold outputFormatErrors at h
  cases x with
  | none => simp at h
  | some f => exact absurd (mem_ite_singleton h) (by decide)

theorem qualityErrors_zero :
    qualityErrors (some 0) = ["Quality must be between 1 and 100"] := by
  show (if (0 : Int) < 1 ∨ 100 < (0 : Int) then ["Quality must be between 1 and 100"]
    else []) = ["Quality must be between 1 and 100"]
  rw [if_pos (by norm_num : (0 : Int) < 1 ∨ 100 < (0 : Int))]

theorem qualityErrors_101 :
    qualityErrors (some 101) = ["Quality must be between 1 and 100"] := by
  show (if (101 : Int) < 1 ∨ 100 < (101 : Int) then ["Quality must be between 1 and 100"]
    else []) = ["Quality must be between 1 and 100"]
  rw [if_pos (by norm_num : (101 : Int) < 1 ∨ 100 < (101 : Int))]

theorem qualityErrors_one : qualityErrors (some 1) = [] := by
  show (if (1 : Int) < 1 ∨ 100 < (1 : Int) then ["Quality must be between 1 and 100"]
    else []) = []
  rw [if_neg (by norm_num : ¬ ((1 : Int) < 1 ∨ 100 < (1 : Int)))]

theorem qualityErrors_hundred : qualityErrors (some 100) = [] := by
  show (if (100 : Int) < 1 ∨ 100 < (100 : Int) then ["Quality must be between 1 and 100"]
    else []) = []
  rw [if_neg (by norm_num : ¬ ((100 : Int) < 1 ∨ 100 < (100 : Int)))]

/-- C9: for every surrounding options record, `validateProcessingOptions`
rejects quality 0 and quality 101, producing the message "Quality must be
between 1 and 100" and an invalid outcome, and accepts quality 1 and quality
100 in the sense that neither produces that message. -/
theorem validateProcessingOptions_quality_bounds (o : ImageProcessingOptions) :
    ("Quality must be between 1 and 100" ∈
        (validateProcessingOptions { o with quality := some 0 }).errors ∧
      (validateProcessingOptions { o with quality := some 0 }).isValid = false) ∧
    ("Quality must be between 1 and 100" ∈
        (validateProcessingOptions { o with quality := some 101 }).errors ∧
      (validateProcessingOptions { o with quality := some 101 }).isValid = false) ∧
    "Quality must be between 1 and 100" ∉
      (validateProcessingOptions { o with quality := some 1 }).errors ∧
    "Quality must be between 1 and 100" ∉
      (validateProcessingOptions { o with quality := some 100 }).errors := by
  have hmem0 : "Quality must be between 1 and 100" ∈
      (validateProcessingOptions { o with quality := some 0 }).errors := by
    unfold validateProcessingOptions
    simp only [qualityErrors_zero, List.mem_append]
    left
    left
    right
    simp
  have hmem101 : "Quality must be between 1 and 100" ∈
      (validateProcessingOptions { o with quality := some 101 }).errors := by
    unfold validateProcessingOptions
    simp only [qualityErrors_101, List.mem_append]
    left
    left
    right
    simp
  refine ⟨⟨hmem0, ?_⟩, ⟨hmem101, ?_⟩, ?_, ?_⟩
  · have hne := List.ne_nil_of_mem hmem0
    unfold validateProcessingOptions at hne ⊢
    simpa [List.isEmpty_iff] using hne
  · have hne := List.ne_nil_of_mem hmem101
    unfold validateProcessingOptions at hne ⊢
    simpa [List.isEmpty_iff] using hne
  · intro h
    unfold validateProcessingOptions at h
    simp only [qualityErrors_one, List.mem_append] at h
    rcases h with ((h1 | h2) | h3) | h4
    · exact quality_msg_not_in_path _ h1
    · simp at h2
    · exact quality_msg_not_in_resize _ h3
    · exact quality_msg_not_in_format _ h4
  · intro h
    unfold validateProcessingOptions at h
    simp only [qualityErrors_hundred, List.mem_append] at h
    rcases h with ((h1 | h2) | h3) | h4
    · exact quality_msg_not_in_path _ h1
    · simp at h2
    · exact quality_msg_not_in_resize _ h3
    · exact quality_msg_not_in_format _ h4

theorem validateProcessingOptions_quality_bounds_witness :
    "Quality must be between 1 and 100" ∈
      (validateProcessingOptions { outputPath := some "out.jpg", quality := some 0 }).errors ∧
    "Quality must be between 1 and 100" ∉
      (validateProcessingOptions { outputPath := some "out.jpg", quality := some 1 }).errors := by
  have h := validateProcessingOptions_quality_bounds { outputPath := some "out.jpg" }
  exact ⟨h.1.1, h.2.2.1⟩
